import Mathlib

set_option maxRecDepth 8000

/-! Shallow embedding of the pipecat Twilio voice-agent glue code:
`bot.py`, `outbound.py`, `setup.py`, together with the telephony
serializer envelope modelled from the design document. Strings that the
Python code manipulates are modelled as `List Char`; audio payload bytes
as `List Nat` with each element below 256. -/

/-! ## Python string primitives -/

/-- `leadsWith pat s` holds when `pat` is an initial segment of `s`
(Python `str.startswith`, used to express one step of `str.replace`). -/
def leadsWith : List Char → List Char → Bool
  | [], _ => true
  | _ :: _, [] => false
  | a :: pa, b :: sb => a == b && leadsWith pa sb

/-- Fuel-indexed single left-to-right pass of Python `s.replace(pat, "")`:
at each position, a match of `pat` is removed and scanning resumes after
it; otherwise one character is emitted. The fuel bounds the recursion; the
wrapper always supplies fuel `s.length`, which suffices. -/
def pyReplaceAux : Nat → List Char → List Char → List Char
  | 0, _, s => s
  | _ + 1, _, [] => []
  | n + 1, pat, c :: t =>
    if leadsWith pat (c :: t) then pyReplaceAux n pat (t.drop (pat.length - 1))
    else c :: pyReplaceAux n pat t

/-- Python `s.replace(pat, "")` for a non-empty `pat` (the source only
ever replaces the literals `http://` and `https://`). -/
def pyReplace (pat s : List Char) : List Char := pyReplaceAux s.length pat s

/-- Python `s.rstrip("/")`: remove every trailing slash. -/
def rstripSlash (s : List Char) : List Char :=
  (s.reverse.dropWhile (fun c => c == '/')).reverse

/-- Python `s.endswith("/")`. -/
def endsSlash (s : List Char) : Bool :=
  match s.getLast? with
  | some c => c == '/'
  | none => false

/-- `pat` occurs somewhere in `s` as a contiguous substring. -/
def hasSub (pat : List Char) : List Char → Bool
  | [] => leadsWith pat []
  | c :: t => leadsWith pat (c :: t) || hasSub pat t

/-- Python truthiness of an optional string: `None` and `""` are falsy. -/
def isTruthy : Option (List Char) → Bool
  | none => false
  | some s => !s.isEmpty

/-- Python `a or b` on optional strings. -/
def pyOr (a b : Option (List Char)) : Option (List Char) :=
  if isTruthy a then a else b

/-- Python truthiness for `Option String` environment values. -/
def truthyS : Option String → Bool
  | none => false
  | some s => !s.isEmpty

def httpPat : List Char := "http://".data

def httpsPat : List Char := "https://".data

/-! ## outbound.py -/

/-- The host normalization inside `build_twiml_url` (outbound.py line 29):
`proxy.replace("http://", "").replace("https://", "").rstrip("/")`. -/
def normalizeProxyHost (p : List Char) : List Char :=
  rstripSlash (pyReplace httpsPat (pyReplace httpPat p))

/-- `build_twiml_url` (outbound.py lines 9-30). Arguments: the `--proxy`
and `--url` CLI values, then the `PIPECAT_PROXY_HOST`, `PROXY_HOST` and
`NGROK_HOST` environment values. `Except.error 2` models `sys.exit(2)`. -/
def build_twiml_url (proxy explicit_url envPipecat envProxy envNgrok :
    Option (List Char)) : Except Nat (List Char) :=
  if isTruthy explicit_url then Except.ok (explicit_url.getD [])
  else
    let proxy2 := if isTruthy proxy then proxy
      else pyOr envPipecat (pyOr envProxy envNgrok)
    if isTruthy proxy2 then
      Except.ok (httpsPat ++ normalizeProxyHost (proxy2.getD []) ++ ['/'])
    else Except.error 2

/-- Observable side effects of the two CLI entry points. -/
inductive CliAction
  | createTwilioClient
  | placeOutboundCall
  | updateWebhooks
deriving DecidableEq

/-- Outcome of running a CLI entry point: exit status (if it exited) and
the external actions it performed, in order. -/
structure CliRun where
  exitCode : Option Nat
  actions : List CliAction
deriving DecidableEq

/-- `main` of outbound.py (lines 33-71): credential guard (lines 55-59),
then `build_twiml_url`, then Twilio client construction and call
placement. -/
def outboundMain (sid tok : Option String)
    (proxy url envPipecat envProxy envNgrok : Option (List Char)) : CliRun :=
  if truthyS sid && truthyS tok then
    match build_twiml_url proxy url envPipecat envProxy envNgrok with
    | Except.error n => { exitCode := some n, actions := [] }
    | Except.ok _ =>
      { exitCode := none
        actions := [CliAction.createTwilioClient, CliAction.placeOutboundCall] }
  else { exitCode := some 2, actions := [] }

/-! ## setup.py -/

/-- `_extract_host_from_url` (setup.py lines 62-65):
`url.replace("https://", "").replace("http://", "").rstrip("/")`. -/
def _extract_host_from_url (url : List Char) : List Char :=
  rstripSlash (pyReplace httpPat (pyReplace httpsPat url))

/-- The keyword arguments `_update_twilio_webhooks` (setup.py lines
101-129) submits to the Twilio number update. -/
structure WebhookUpdate where
  voice_url : List Char
  voice_method : String
  voice_fallback_url : Option (List Char)
  voice_fallback_method : Option String
deriving DecidableEq

/-- The trailing-slash normalization at the top of
`_update_twilio_webhooks` (setup.py lines 109-110). -/
def ensureTrailingSlash (s : List Char) : List Char :=
  if endsSlash s then s else s ++ ['/']

/-- `_update_twilio_webhooks` (setup.py lines 101-129): appends a
trailing slash when missing, always uses POST, and mirrors the primary
URL into the fallback URL when `set_fallback` is set. -/
def _update_twilio_webhooks (public_url : List Char) (set_fallback : Bool) :
    WebhookUpdate :=
  { voice_url := ensureTrailingSlash public_url
    voice_method := "POST"
    voice_fallback_url :=
      if set_fallback then some (ensureTrailingSlash public_url) else none
    voice_fallback_method := if set_fallback then some "POST" else none }

/-- `main` of setup.py up to and including the credential guard (lines
202-208): with both credentials truthy the Twilio client is constructed
next; the later interactive number selection, ngrok start, and webhook
update are elided, as only the guard decides the claims. -/
def setupMain (sid tok : Option String) : CliRun :=
  if truthyS sid && truthyS tok then
    { exitCode := none, actions := [CliAction.createTwilioClient] }
  else { exitCode := some 2, actions := [] }

/-! ## bot.py: tool schema, handler, pipeline parameters, transports -/

/-- Payload passed by `check_availability` to `params.result_callback`
(bot.py line 93). -/
structure ToolResult where
  available : Bool
deriving DecidableEq

/-- Arguments the `check_availability` tool schema declares (bot.py lines
65-82). -/
structure FunctionCallArgs where
  date : String
  time : String
  party_size : Int
deriving DecidableEq

/-- The `check_availability` handler (bot.py lines 91-93): it sleeps
(elided: no observable effect), then awaits `result_callback` once with
`{available: True}`. The returned list records every `result_callback`
invocation, in order. -/
def check_availability (_args : FunctionCallArgs) : List ToolResult :=
  [{ available := true }]

structure ToolProperty where
  name : String
  type : String
  description : String
deriving DecidableEq

structure ToolFunctionDecl where
  name : String
  description : String
  properties : List ToolProperty
  required : List String
deriving DecidableEq

/-- The `tools` list given to `OpenAILLMContext` (bot.py lines 59-85). -/
def toolsList : List ToolFunctionDecl :=
  [{ name := "check_availability"
     description := "Check table availability. Always returns that a table is available."
     properties :=
       [{ name := "date", type := "string", description := "Desired date (YYYY-MM-DD)" },
        { name := "time", type := "string", description := "Desired time (HH:MM, 24h)" },
        { name := "party_size", type := "integer", description := "Number of guests" }]
     required := ["date", "time", "party_size"] }]

/-- The `tool_choice` argument of `OpenAILLMContext` (bot.py line 88). -/
def tool_choice : String := "auto"

/-- The handler table built by the `register_function` calls at session
setup (bot.py line 95): exactly one entry. -/
def registeredHandlers : List (String × (FunctionCallArgs → List ToolResult)) :=
  [("check_availability", check_availability)]

/-- One conversation message as stored in `messages` (bot.py). -/
structure ChatMessage where
  role : String
  content : String
deriving DecidableEq

/-- The message appended by `on_client_connected` (bot.py line 127). -/
def greetingPromptMessage : ChatMessage :=
  { role := "system"
    content := "Say something like \x27Thank you for calling, The Salusbury how can I help you today?\x27" }

/-- Frames that the connect handler queues. -/
inductive FrameM
  | contextFrame
deriving DecidableEq

/-- `on_client_connected` (bot.py lines 123-128): appends the greeting
prompt to `messages` and calls `task.queue_frames` once with a single
context frame. First component: the updated messages; second component:
the list of `queue_frames` invocations, each with its frame list. -/
def on_client_connected (messages : List ChatMessage) :
    List ChatMessage × List (List FrameM) :=
  (messages ++ [greetingPromptMessage], [[FrameM.contextFrame]])

/-- Observable actions of the transport event handlers. -/
inductive SessionAction
  | logEvent
  | cancelPipelineTask
  | retryConnection
deriving DecidableEq

/-- `on_client_disconnected` (bot.py lines 130-134): logs, then awaits
`task.cancel()`; nothing reconnects or retries. -/
def on_client_disconnected_actions : List SessionAction :=
  [SessionAction.logEvent, SessionAction.cancelPipelineTask]

/-- Pipeline task state machine (spec section 3). -/
inductive TaskState
  | created
  | running
  | cancelled
  | completed
deriving DecidableEq

/-- Modelled from the spec: `PipelineTask.cancel` lives in the pipecat
library, not in src/; the spec states it "is idempotent, transitions
state to Cancelled". -/
def cancelTask : TaskState → TaskState := fun _ => TaskState.cancelled

def applySessionAction (s : TaskState) : SessionAction → TaskState
  | SessionAction.cancelPipelineTask => cancelTask s
  | _ => s

/-- Effect of running the disconnect handler on the task state. -/
def runDisconnectHandler (s : TaskState) : TaskState :=
  on_client_disconnected_actions.foldl applySessionAction s

/-- `PipelineParams` as constructed in `run_bot` (bot.py lines 112-121). -/
structure PipelineParamsM where
  audio_in_sample_rate : Nat
  audio_out_sample_rate : Nat
  enable_metrics : Bool
  enable_usage_metrics : Bool
deriving DecidableEq

/-- The pipeline parameters `run_bot` passes to `PipelineTask` (bot.py
lines 114-119): both sample rates are the literal 8000, whatever
transport was handed in. -/
def run_bot_params : PipelineParamsM :=
  { audio_in_sample_rate := 8000
    audio_out_sample_rate := 8000
    enable_metrics := true
    enable_usage_metrics := true }

/-- The runner-argument kinds `bot` dispatches on (bot.py lines 147-199). -/
inductive RunnerArgsM
  | smallWebRTC
  | webSocketTelephony
  | dailySession
  | unsupported
deriving DecidableEq

/-- Transport construction parameters that `bot` selects (bot.py lines
149-156, 173-182, 188-195). -/
structure TransportConfigM where
  audio_in_enabled : Bool
  audio_out_enabled : Bool
  vad_silero : Bool
  twilio_serializer : Bool
deriving DecidableEq

/-- `bot` (bot.py lines 142-206): the transport it constructs for each
runner-argument kind, `none` when it logs an error and returns without
constructing one. -/
def botTransport : RunnerArgsM → Option TransportConfigM
  | RunnerArgsM.smallWebRTC =>
    some { audio_in_enabled := true, audio_out_enabled := true
           vad_silero := true, twilio_serializer := false }
  | RunnerArgsM.webSocketTelephony =>
    some { audio_in_enabled := true, audio_out_enabled := true
           vad_silero := true, twilio_serializer := true }
  | RunnerArgsM.dailySession =>
    some { audio_in_enabled := true, audio_out_enabled := true
           vad_silero := true, twilio_serializer := false }
  | RunnerArgsM.unsupported => none

/-- The pipeline parameters in force for a session started from the given
runner arguments: `bot` hands every constructed transport to `run_bot`,
which always builds `run_bot_params`. -/
def sessionPipelineParams (ra : RunnerArgsM) : Option PipelineParamsM :=
  (botTransport ra).map (fun _ => run_bot_params)

/-! ## Telephony serializer envelope, modelled from the spec -/

/-- Base64 alphabet: 6-bit value to character code. -/
def b64Char (v : Nat) : Nat :=
  if v < 26 then 65 + v
  else if v < 52 then 97 + (v - 26)
  else if v < 62 then 48 + (v - 52)
  else if v = 62 then 43
  else 47

/-- Base64 alphabet inverse: character code to 6-bit value. -/
def b64DecChar (c : Nat) : Option Nat :=
  if 65 ≤ c ∧ c ≤ 90 then some (c - 65)
  else if 97 ≤ c ∧ c ≤ 122 then some (26 + (c - 97))
  else if 48 ≤ c ∧ c ≤ 57 then some (52 + (c - 48))
  else if c = 43 then some 62
  else if c = 47 then some 63
  else none

/-- Base64-encode a byte sequence (character code 61 is the padding
character). -/
def b64Encode : List Nat → List Nat
  | [] => []
  | [a] => [b64Char (a / 4), b64Char (a % 4 * 16), 61, 61]
  | [a, b] =>
    [b64Char (a / 4), b64Char (a % 4 * 16 + b / 16), b64Char (b % 16 * 4), 61]
  | a :: b :: c :: rest =>
    b64Char (a / 4) :: b64Char (a % 4 * 16 + b / 16) ::
      b64Char (b % 16 * 4 + c / 64) :: b64Char (c % 64) :: b64Encode rest

/-- Base64-decode a character-code sequence; `none` on malformed input. -/
def b64Decode : List Nat → Option (List Nat)
  | [] => some []
  | w :: x :: y :: z :: rest =>
    match b64DecChar w, b64DecChar x with
    | some hw, some hx =>
      if z = 61 then
        match rest with
        | _ :: _ => none
        | [] =>
          if y = 61 then some [hw * 4 + hx / 16]
          else
            match b64DecChar y with
            | some hy => some [hw * 4 + hx / 16, hx % 16 * 16 + hy / 4]
            | none => none
      else
        match b64DecChar y, b64DecChar z with
        | some hy, some hz =>
          match b64Decode rest with
          | some bs =>
            some ((hw * 4 + hx / 16) :: (hx % 16 * 16 + hy / 4) ::
              (hy % 4 * 64 + hz) :: bs)
          | none => none
        | _, _ => none
    | _, _ => none
  | _ => none

/-- Outbound telephony media envelope (spec section 6):
`{event: "media", streamSid, media: {payload: base64 audio}}`. -/
structure TwilioMediaEnvelope where
  event : String
  streamSid : String
  payload : List Nat
deriving DecidableEq

/-- Modelled from the spec: `TwilioFrameSerializer` lives in the pipecat
library, not in src/ (bot.py lines 165-170 only construct it). Per spec
section 6 an audio frame serializes to a `media` envelope whose payload
is the base64-encoded audio bytes. -/
def twilioSerializeMedia (streamSid : String) (audio : List Nat) :
    TwilioMediaEnvelope :=
  { event := "media", streamSid := streamSid, payload := b64Encode audio }

/-- Modelled from the spec: deserializing a telephony envelope recovers
the audio bytes by base64-decoding the payload of a `media` event. -/
def twilioDeserializeMedia (env : TwilioMediaEnvelope) : Option (List Nat) :=
  if env.event = "media" then b64Decode env.payload else none

/-- The proxy input exhibiting the host round-trip failure of claim C8. -/
def cexProxy : List Char := "hthttp://tp://x".data

/-- A well-formed proxy host used to exercise the round-trip theorem. -/
def demoProxy : List Char := "abc.example.io".data

/-! ## String lemmas -/

theorem leadsWith_append_self (pat s : List Char) :
    leadsWith pat (pat ++ s) = true := by
  induction pat with
  | nil => rfl
  | cons a pa ih => simp [leadsWith, ih]

theorem pyReplaceAux_congr_fuel :
    ∀ (n m : Nat) (pat s : List Char), s.length ≤ n → s.length ≤ m →
      pyReplaceAux n pat s = pyReplaceAux m pat s := by
  intro n
  induction n with
  | zero =>
    intro m pat s hn _
    have hs : s = [] := by
      cases s with
      | nil => rfl
      | cons c t => simp at hn
    subst hs
    cases m <;> rfl
  | succ k ih =>
    intro m pat s hn hm
    cases s with
    | nil => cases m <;> rfl
    | cons c t =>
      cases m with
      | zero => simp at hm
      | succ j =>
        simp only [pyReplaceAux]
        by_cases hl : leadsWith pat (c :: t) = true
        · rw [if_pos hl, if_pos hl]
          apply ih
          · simp only [List.length_drop]
            simp at hn
            omega
          · simp only [List.length_drop]
            simp at hm
            omega
        · rw [if_neg hl, if_neg hl]
          have hrec := ih j pat t (by simp at hn; omega) (by simp at hm; omega)
          rw [hrec]

theorem pyReplace_seed (pat s : List Char) (hne : pat ≠ []) :
    pyReplace pat (pat ++ s) = pyReplace pat s := by
  cases pat with
  | nil => exact absurd rfl hne
  | cons p0 pr =>
    unfold pyReplace
    have hlen : ((p0 :: pr) ++ s).length = (pr.length + s.length) + 1 := by
      simp
      try omega
    rw [hlen]
    have hcons : (p0 :: pr) ++ s = p0 :: (pr ++ s) := rfl
    rw [hcons]
    simp only [pyReplaceAux]
    rw [if_pos (by exact leadsWith_append_self (p0 :: pr) s)]
    have hdrop : (pr ++ s).drop ((p0 :: pr).length - 1) = s := by
      simp only [List.length_cons, Nat.add_sub_cancel]
      exact List.drop_left pr s
    rw [hdrop]
    exact pyReplaceAux_congr_fuel _ _ _ _ (by omega) (by omega)

theorem pyReplaceAux_no_occurrence :
    ∀ (n : Nat) (pat s : List Char), hasSub pat s = false →
      pyReplaceAux n pat s = s := by
  intro n
  induction n with
  | zero => intro pat s _; rfl
  | succ k ih =>
    intro pat s h
    cases s with
    | nil => rfl
    | cons c t =>
      have h2 : leadsWith pat (c :: t) = false ∧ hasSub pat t = false := by
        simpa [hasSub] using h
      simp only [pyReplaceAux, h2.1, if_false, Bool.false_eq_true]
      rw [ih pat t h2.2]

theorem pyReplace_no_occurrence (pat s : List Char) (h : hasSub pat s = false) :
    pyReplace pat s = s :=
  pyReplaceAux_no_occurrence _ _ _ h

theorem leadsWith_concat :
    ∀ (pat u : List Char) (c : Char), leadsWith pat (u ++ [c]) = true →
      leadsWith pat u = true ∨ pat = u ++ [c] := by
  intro pat
  induction pat with
  | nil => intro u c _; exact Or.inl rfl
  | cons a pa ih =>
    intro u c h
    cases u with
    | nil =>
      simp only [List.nil_append, leadsWith, Bool.and_eq_true, beq_iff_eq] at h
      cases pa with
      | nil => exact Or.inr (by simp [h.1])
      | cons x xs => simp [leadsWith] at h
    | cons b ub =>
      simp only [List.cons_append, leadsWith, Bool.and_eq_true, beq_iff_eq] at h
      obtain ⟨hab, h2⟩ := h
      rcases ih ub c h2 with h3 | h3
      · exact Or.inl (by simp [leadsWith, hab, h3])
      · exact Or.inr (by simp [hab, h3])

theorem hasSub_concat :
    ∀ (u pat : List Char) (c : Char), hasSub pat (u ++ [c]) = true →
      hasSub pat u = true ∨ ∃ v w, u = w ++ v ∧ pat = v ++ [c] := by
  intro u
  induction u with
  | nil =>
    intro pat c h
    simp only [List.nil_append, hasSub, Bool.or_eq_true] at h
    rcases h with h | h
    · rcases leadsWith_concat pat [] c (by simpa using h) with h2 | h2
      · exact Or.inl (by simpa [hasSub] using h2)
      · exact Or.inr ⟨[], [], rfl, by simpa using h2⟩
    · exact Or.inl h
  | cons a t ih =>
    intro pat c h
    simp only [List.cons_append, hasSub, Bool.or_eq_true] at h
    rcases h with h | h
    · have h1 : leadsWith pat ((a :: t) ++ [c]) = true := by simpa using h
      rcases leadsWith_concat pat (a :: t) c h1 with h2 | h2
      · exact Or.inl (by simp [hasSub, h2])
      · exact Or.inr ⟨a :: t, [], rfl, h2⟩
    · rcases ih pat c h with h2 | h2
      · exact Or.inl (by simp [hasSub, h2])
      · obtain ⟨v, w, huv, hp⟩ := h2
        exact Or.inr ⟨v, a :: w, by simp [huv], hp⟩

theorem getLast?_ne_of_rstrip (s : List Char) :
    (rstripSlash s).getLast? ≠ some '/' := by
  unfold rstripSlash
  rw [List.getLast?_reverse]
  intro h
  have h2 := List.head?_dropWhile_not (fun c => c == '/') s.reverse
  rw [h] at h2
  simp at h2

theorem rstripSlash_concat_slash (s : List Char) :
    rstripSlash (s ++ ['/']) = rstripSlash s := by
  unfold rstripSlash
  rw [List.reverse_append]
  simp only [List.reverse_cons, List.reverse_nil, List.nil_append,
    List.singleton_append]
  rw [List.dropWhile_cons_of_pos (by simp)]

theorem rstripSlash_eq_self (s : List Char) (h : s.getLast? ≠ some '/') :
    rstripSlash s = s := by
  unfold rstripSlash
  cases hrev : s.reverse with
  | nil =>
    have hs : s = [] := by simpa using congrArg List.reverse hrev
    subst hs
    rfl
  | cons a t =>
    have h3 : s.getLast? = s.reverse.head? := by
      conv_lhs => rw [← List.reverse_reverse s]
      rw [List.getLast?_reverse]
    rw [hrev] at h3
    have ha : ¬ ((a == '/') = true) := by
      simp only [beq_iff_eq]
      intro hac
      exact h (by rw [h3, hac]; rfl)
    have hd : List.dropWhile (fun c => c == '/') (a :: t) = a :: t := by
      rw [List.dropWhile_cons, if_neg ha]
    rw [hd, ← hrev, List.reverse_reverse]

theorem rstripSlash_idem (s : List Char) :
    rstripSlash (rstripSlash s) = rstripSlash s :=
  rstripSlash_eq_self _ (getLast?_ne_of_rstrip s)

theorem hasSub_concat_slash (pat u : List Char)
    (hp : ∃ q, pat = (q ++ ['/']) ++ ['/'])
    (hend : u.getLast? ≠ some '/') (hu : hasSub pat u = false) :
    hasSub pat (u ++ ['/']) = false := by
  cases hres : hasSub pat (u ++ ['/']) with
  | false => rfl
  | true =>
    exfalso
    rcases hasSub_concat u pat '/' hres with h | ⟨v, w, huv, hpv⟩
    · rw [h] at hu
      cases hu
    · obtain ⟨q, hq⟩ := hp
      have heq : v ++ ['/'] = (q ++ ['/']) ++ ['/'] := hpv.symm.trans hq
      have hv : v = q ++ ['/'] := by
        have h4 := congrArg List.dropLast heq
        simpa using h4
      apply hend
      rw [huv, hv, ← List.append_assoc]
      exact List.getLast?_concat _

theorem extract_of_clean (h : List Char)
    (hend : h.getLast? ≠ some '/')
    (hidem : rstripSlash h = h)
    (h1 : hasSub httpPat h = false) (h2 : hasSub httpsPat h = false) :
    _extract_host_from_url (httpsPat ++ h ++ ['/']) = h := by
  have h1c : hasSub httpPat (h ++ ['/']) = false :=
    hasSub_concat_slash httpPat h ⟨"http:".data, by decide⟩ hend h1
  have h2c : hasSub httpsPat (h ++ ['/']) = false :=
    hasSub_concat_slash httpsPat h ⟨"https:".data, by decide⟩ hend h2
  unfold _extract_host_from_url
  rw [List.append_assoc]
  rw [pyReplace_seed httpsPat (h ++ ['/']) (by decide)]
  rw [pyReplace_no_occurrence _ _ h2c]
  rw [pyReplace_no_occurrence _ _ h1c]
  rw [rstripSlash_concat_slash, hidem]

/-! ## Base64 lemmas -/

theorem b64DecChar_b64Char : ∀ v, v < 64 → b64DecChar (b64Char v) = some v := by
  decide

theorem b64Char_ne_pad : ∀ v, v < 64 → b64Char v ≠ 61 := by
  decide

theorem b64Decode_b64Encode (bs : List Nat) (h : ∀ b ∈ bs, b < 256) :
    b64Decode (b64Encode bs) = some bs := by
  induction bs using b64Encode.induct with
  | case1 => rfl
  | case2 a =>
    have ha : a < 256 := h a (by simp)
    simp only [b64Encode, b64Decode]
    rw [b64DecChar_b64Char (a / 4) (by omega),
      b64DecChar_b64Char (a % 4 * 16) (by omega)]
    simp only [if_pos rfl, if_true]
    refine congrArg some ?_
    simp only [List.cons.injEq]
    exact ⟨by omega, trivial⟩
  | case3 a b =>
    have ha : a < 256 := h a (by simp)
    have hb : b < 256 := h b (by simp)
    simp only [b64Encode, b64Decode]
    rw [b64DecChar_b64Char (a / 4) (by omega),
      b64DecChar_b64Char (a % 4 * 16 + b / 16) (by omega),
      b64DecChar_b64Char (b % 16 * 4) (by omega)]
    simp only [if_pos rfl, if_true,
      if_neg (b64Char_ne_pad (b % 16 * 4) (by omega))]
    refine congrArg some ?_
    simp only [List.cons.injEq]
    exact ⟨by omega, by omega, trivial⟩
  | case4 a b c rest ih =>
    have ha : a < 256 := h a (by simp)
    have hb : b < 256 := h b (by simp)
    have hc : c < 256 := h c (by simp)
    have hrest : ∀ x ∈ rest, x < 256 := by
      intro x hx
      exact h x (by simp [hx])
    simp only [b64Encode, b64Decode]
    rw [b64DecChar_b64Char (a / 4) (by omega),
      b64DecChar_b64Char (a % 4 * 16 + b / 16) (by omega),
      b64DecChar_b64Char (b % 16 * 4 + c / 64) (by omega),
      b64DecChar_b64Char (c % 64) (by omega)]
    rw [ih hrest]
    simp only [if_neg (b64Char_ne_pad (c % 64) (by omega))]
    refine congrArg some ?_
    simp only [List.cons.injEq]
    exact ⟨by omega, by omega, by omega, trivial⟩

/-! ## Claim theorems -/

/-- C1: every invocation of the registered check_availability tool handler
invokes its result callback exactly once, and the result it passes is
available = true, regardless of the date, time, and party_size arguments
supplied. -/
theorem check_availability_resolves_once (args : FunctionCallArgs) :
    check_availability args = [{ available := true }] ∧
    (check_availability args).length = 1 :=
  ⟨rfl, rfl⟩

/-- C2 counterexample: the claim says the web real-time (SmallWebRTC)
session negotiates a higher sample rate than 8 kHz; in the code every
session, web included, runs with the fixed 8000 Hz pipeline parameters. -/
theorem webrtc_rate_not_higher_cex :
    sessionPipelineParams RunnerArgsM.smallWebRTC = some run_bot_params ∧
    ¬ 8000 < run_bot_params.audio_in_sample_rate ∧
    ¬ 8000 < run_bot_params.audio_out_sample_rate :=
  ⟨rfl, by decide, by decide⟩

/-- C2 (amended): for every session, whatever the provider kind, the
pipeline audio format is 8000 Hz in and out, a constant fixed for the
session's lifetime. -/
theorem session_audio_format_8k :
    sessionPipelineParams RunnerArgsM.webSocketTelephony = some run_bot_params ∧
    sessionPipelineParams RunnerArgsM.smallWebRTC = some run_bot_params ∧
    sessionPipelineParams RunnerArgsM.dailySession = some run_bot_params ∧
    run_bot_params.audio_in_sample_rate = 8000 ∧
    run_bot_params.audio_out_sample_rate = 8000 :=
  ⟨rfl, rfl, rfl, rfl, rfl⟩

/-- C3: when the transport reports a client disconnect, the handler
cancels the pipeline task exactly once (driving the task to the terminal
Cancelled state) and never retries the connection; cancellation is
idempotent. -/
theorem disconnect_cancels_without_retry :
    on_client_disconnected_actions.count SessionAction.cancelPipelineTask = 1 ∧
    SessionAction.retryConnection ∉ on_client_disconnected_actions ∧
    runDisconnectHandler TaskState.running = TaskState.cancelled ∧
    (∀ s : TaskState, cancelTask (cancelTask s) = cancelTask s) :=
  ⟨by decide, by decide, rfl, fun _ => rfl⟩

/-- C4: when a client connection is established, exactly one
greeting-prompt seed is injected: one system message is appended to the
conversation messages and queue_frames is called once with a single
context frame. -/
theorem connect_seeds_one_greeting_frame (messages : List ChatMessage) :
    on_client_connected messages =
      (messages ++ [greetingPromptMessage], [[FrameM.contextFrame]]) ∧
    greetingPromptMessage.role = "system" :=
  ⟨rfl, rfl⟩

/-- C5: the conversation context is built with exactly one registered
tool, whose schema declares name, description and typed parameters with
date (string), time (string), party_size (integer) all required; the
tool-selection policy is auto; and the handler table maps the tool name
check_availability to its handler. -/
theorem context_single_tool_auto_policy :
    toolsList.map ToolFunctionDecl.name = ["check_availability"] ∧
    toolsList.map ToolFunctionDecl.description =
      ["Check table availability. Always returns that a table is available."] ∧
    toolsList.map (fun d => d.properties.map (fun q => (q.name, q.type))) =
      [[("date", "string"), ("time", "string"), ("party_size", "integer")]] ∧
    toolsList.map ToolFunctionDecl.required = [["date", "time", "party_size"]] ∧
    tool_choice = "auto" ∧
    registeredHandlers = [("check_availability", check_availability)] :=
  ⟨rfl, rfl, rfl, rfl, rfl, rfl⟩

/-- C6: whenever TWILIO_ACCOUNT_SID or TWILIO_AUTH_TOKEN is unset or
empty, both the outbound-call and setup entry points exit with status 2
having performed no external action: no Twilio client construction, no
call placement, no webhook update. -/
theorem missing_twilio_creds_exit_two (sid tok : Option String)
    (pr ur e1 e2 e3 : Option (List Char))
    (h : sid = none ∨ sid = some "" ∨ tok = none ∨ tok = some "") :
    outboundMain sid tok pr ur e1 e2 e3 = { exitCode := some 2, actions := [] } ∧
    setupMain sid tok = { exitCode := some 2, actions := [] } := by
  have hb : (truthyS sid && truthyS tok) = false := by
    rcases h with h | h | h | h <;> subst h <;>
      first
      | exact Bool.false_and _
      | exact Bool.and_false _
  constructor
  · simp [outboundMain, hb]
  · simp [setupMain, hb]

/-- C6 witness at a concrete environment with the account SID unset. -/
theorem missing_twilio_creds_exit_two_witness :
    outboundMain none (some "token") none none none none none =
      { exitCode := some 2, actions := [] } ∧
    setupMain none (some "token") = { exitCode := some 2, actions := [] } :=
  missing_twilio_creds_exit_two none (some "token") none none none none none
    (Or.inl rfl)

/-- C7: serializing an audio frame to the telephony wire envelope and
deserializing it back recovers the original audio payload bytes exactly. -/
theorem twilio_serializer_round_trip (sid : String) (audio : List Nat)
    (h : ∀ b ∈ audio, b < 256) :
    twilioDeserializeMedia (twilioSerializeMedia sid audio) = some audio := by
  unfold twilioSerializeMedia twilioDeserializeMedia
  simp only [if_pos rfl]
  exact b64Decode_b64Encode audio h

/-- C7 witness at a concrete stream id and payload. -/
theorem twilio_serializer_round_trip_witness :
    twilioDeserializeMedia (twilioSerializeMedia "S1" [0, 255, 16, 100]) =
      some [0, 255, 16, 100] :=
  twilio_serializer_round_trip "S1" [0, 255, 16, 100] (by decide)

/-- C8 counterexample: for the proxy string "hthttp://tp://x" the
normalized host still contains "http://" (single-pass replacement can
recreate an occurrence), so applying _extract_host_from_url to the built
TwiML URL does not return the normalized host, refuting the claimed host
round-trip. -/
theorem build_twiml_url_round_trip_cex :
    build_twiml_url (some cexProxy) none none none none =
      Except.ok (httpsPat ++ normalizeProxyHost cexProxy ++ ['/']) ∧
    _extract_host_from_url (httpsPat ++ normalizeProxyHost cexProxy ++ ['/']) ≠
      normalizeProxyHost cexProxy :=
  ⟨by rfl, by decide⟩

/-- C8 (amended): build_twiml_url returns any non-empty explicit URL
unchanged; otherwise, for a non-empty proxy p it returns
"https://" ++ p2 ++ "/" where p2 is p with "http://" then "https://"
occurrences removed and trailing slashes stripped; _extract_host_from_url
applied to that result returns p2 provided p2 itself contains no
"http://" or "https://" occurrence; and with neither an explicit URL nor
any truthy proxy source it exits with status 2. -/
theorem build_twiml_url_spec :
    (∀ (pr e1 e2 e3 : Option (List Char)) (u : List Char), u ≠ [] →
      build_twiml_url pr (some u) e1 e2 e3 = Except.ok u) ∧
    (∀ (ex e1 e2 e3 : Option (List Char)) (p : List Char),
      isTruthy ex = false → p ≠ [] →
      build_twiml_url (some p) ex e1 e2 e3 =
        Except.ok (httpsPat ++ normalizeProxyHost p ++ ['/'])) ∧
    (∀ p : List Char,
      hasSub httpPat (normalizeProxyHost p) = false →
      hasSub httpsPat (normalizeProxyHost p) = false →
      _extract_host_from_url (httpsPat ++ normalizeProxyHost p ++ ['/']) =
        normalizeProxyHost p) ∧
    (∀ pr ex e1 e2 e3 : Option (List Char),
      isTruthy pr = false → isTruthy ex = false → isTruthy e1 = false →
      isTruthy e2 = false → isTruthy e3 = false →
      build_twiml_url pr ex e1 e2 e3 = Except.error 2) := by
  refine ⟨?_, ?_, ?_, ?_⟩
  · intro pr e1 e2 e3 u hu
    have ht : isTruthy (some u) = true := by
      cases u with
      | nil => exact absurd rfl hu
      | cons c t => rfl
    simp [build_twiml_url, ht]
  · intro ex e1 e2 e3 p hex hp
    have ht : isTruthy (some p) = true := by
      cases p with
      | nil => exact absurd rfl hp
      | cons c t => rfl
    simp [build_twiml_url, hex, ht]
  · intro p h1 h2
    exact extract_of_clean (normalizeProxyHost p)
      (getLast?_ne_of_rstrip (pyReplace httpsPat (pyReplace httpPat p)))
      (rstripSlash_idem (pyReplace httpsPat (pyReplace httpPat p))) h1 h2
  · intro pr ex e1 e2 e3 h1 h2 h3 h4 h5
    simp [build_twiml_url, pyOr, h1, h2, h3, h4, h5]

/-- C8 witness exercising each clause at concrete inputs. -/
theorem build_twiml_url_spec_witness :
    build_twiml_url none (some ("https://x.io/".data)) none none none =
      Except.ok ("https://x.io/".data) ∧
    build_twiml_url (some demoProxy) none none none none =
      Except.ok (httpsPat ++ normalizeProxyHost demoProxy ++ ['/']) ∧
    _extract_host_from_url (httpsPat ++ normalizeProxyHost demoProxy ++ ['/']) =
      normalizeProxyHost demoProxy ∧
    build_twiml_url none none none none none = Except.error 2 :=
  ⟨build_twiml_url_spec.1 none none none none _ (by decide),
   build_twiml_url_spec.2.1 none none none none demoProxy rfl (by decide),
   build_twiml_url_spec.2.2.1 demoProxy (by decide) (by decide),
   build_twiml_url_spec.2.2.2 none none none none none rfl rfl rfl rfl rfl⟩

/-- C9: _update_twilio_webhooks always submits a voice_url that ends in a
slash, with voice_method POST, and when set_fallback holds the submitted
voice_fallback_url equals the voice_url. -/
theorem webhook_update_always_post_slash (public_url : List Char)
    (set_fallback : Bool) :
    endsSlash (_update_twilio_webhooks public_url set_fallback).voice_url = true ∧
    (_update_twilio_webhooks public_url set_fallback).voice_method = "POST" ∧
    (_update_twilio_webhooks public_url set_fallback).voice_fallback_url =
      (if set_fallback then
        some (_update_twilio_webhooks public_url set_fallback).voice_url
      else none) := by
  refine ⟨?_, rfl, rfl⟩
  show endsSlash (ensureTrailingSlash public_url) = true
  unfold ensureTrailingSlash
  by_cases h : endsSlash public_url = true
  · rw [if_pos h]
    exact h
  · rw [if_neg h]
    unfold endsSlash
    rw [List.getLast?_concat]
    rfl

/-- C10: for each supported runner-argument kind bot constructs a
transport with audio input enabled, audio output enabled and a Silero VAD
analyzer (the telephony one additionally carrying the Twilio serializer);
for any other runner-argument type it returns without constructing a
transport. -/
theorem bot_transport_per_runner_kind :
    botTransport RunnerArgsM.smallWebRTC =
      some { audio_in_enabled := true, audio_out_enabled := true,
             vad_silero := true, twilio_serializer := false } ∧
    botTransport RunnerArgsM.webSocketTelephony =
      some { audio_in_enabled := true, audio_out_enabled := true,
             vad_silero := true, twilio_serializer := true } ∧
    botTransport RunnerArgsM.dailySession =
      some { audio_in_enabled := true, audio_out_enabled := true,
             vad_silero := true, twilio_serializer := false } ∧
    botTransport RunnerArgsM.unsupported = none :=
  ⟨rfl, rfl, rfl, rfl⟩
